import Mathlib

/-!
Verification of the kiosk tap-reader (`src/runner.py`).

The development shallowly embeds the parts of `runner.py` that the
properties below are about:

* `byte_string_to_lens_id` / `TapManager.byte_string_to_lens_id` — the two
  (textually identical) normalizers that turn a raw line such as
  `"04:04:A5:2C:F2:2A:5E:80"` into `"04a52cf22a5e80"`.  Python string
  primitives (`str.strip`, `str.split(":")`, `"".join`, `str.lower`) are
  modelled on `List Char` by `py_strip_list`, `py_split`, `List.join` and
  `Char.toLower` (the inputs of interest are ASCII, where Python `lower`
  and `Char.toLower` agree).
* `TapManager.read_line`, `tap_on`, `tap_off`, `reset_tap_off_timer` and
  `send_tap` — the tap state machine.  Mutable state becomes `TapState`;
  side effects (logging, LED calls, the HTTP POST, Sentry reporting)
  become an event list; the response of `requests.post` (or the exception
  it raises) is passed in as an `HttpResult`; an uncaught Python exception
  becomes `Except.error`.
* the regex gate of the `main` loop, `re.match` with pattern `([0-9a-fA-F]{2}:?)+` —
  `re_match_byte_string` (Python `re.match` anchors at the start only, so
  the gate holds exactly when one repetition of the group matches there).
* `RampThread.run` and `RampThread.ease` — `run_ramp`, driven by the list
  of samples of `time() - t0` (one per loop iteration) together with the
  stop flag observed at that iteration; it returns the colors written by
  `set_leds`, the number of calls made to `ease`, and how the loop ended.
-/

/-- Python `str.isspace` characters removed by `str.strip()` (ASCII part). -/
def is_py_space (c : Char) : Bool :=
  c == ' ' || c == '\t' || c == '\n' || c == '\r' || c == '\x0b' || c == '\x0c'

/-- Python `str.strip()` on a list of characters: drop leading and trailing
whitespace. -/
def py_strip_list (l : List Char) : List Char :=
  ((l.dropWhile is_py_space).reverse.dropWhile is_py_space).reverse

/-- Helper for `py_split`: returns the first separator-free group and the
remaining groups. -/
def py_split_aux (sep : Char) : List Char → List Char × List (List Char)
  | [] => ([], [])
  | c :: cs =>
    let r := py_split_aux sep cs
    if c = sep then ([], r.1 :: r.2) else (c :: r.1, r.2)

/-- Python `s.split(sep)` for a one-character separator: splits on every
occurrence, keeping empty groups, and never returns an empty list
(`"".split(":") == [""]`). -/
def py_split (sep : Char) (l : List Char) : List (List Char) :=
  (py_split_aux sep l).1 :: (py_split_aux sep l).2

/-- The character class `[0-9a-fA-F]` of the reader regex. -/
def is_hex_digit (c : Char) : Bool :=
  ('0' ≤ c && c ≤ '9') || ('a' ≤ c && c ≤ 'f') || ('A' ≤ c && c ≤ 'F')

/-- Module-level `byte_string_to_lens_id` (`runner.py` lines 247-254):
`"".join(byte_string.strip().split(":")[1:]).lower()`. -/
def byte_string_to_lens_id (byte_string : String) : String :=
  ⟨(((py_split ':' (py_strip_list byte_string.data)).drop 1).flatten).map Char.toLower⟩

namespace TapManager

/-- Method `TapManager._byte_string_to_lens_id` (`runner.py` lines 223-230):
`"".join(byte_string.strip().split(":")[1:]).lower()` — the same expression
as the module-level function. -/
def byte_string_to_lens_id (byte_string : String) : String :=
  ⟨(((py_split ':' (py_strip_list byte_string.data)).drop 1).flatten).map Char.toLower⟩

end TapManager

/-- One attempt to match the regex group `[0-9a-fA-F]{2}:?` at the head of
the input; on success returns the remainder (the optional `:?` is greedy,
matching a colon when one is present). -/
def match_group : List Char → Option (List Char)
  | c0 :: c1 :: rest =>
    if is_hex_digit c0 && is_hex_digit c1 then
      some (match rest with
            | ':' :: r => r
            | r => r)
    else none
  | _ => none

/-- Truthiness of `re.match` with pattern `([0-9a-fA-F]{2}:?)+` in `main`
(`runner.py` line 272).  `re.match` anchors at position 0 only and succeeds
iff a match starts there; for a pattern `(G)+` a match starts at 0 iff one
repetition of `G` matches at 0. -/
def re_match_byte_string (line : String) : Bool :=
  (match_group line.data).isSome

/-- The amended gate condition: the line starts with two hexadecimal
digits. -/
def starts_with_two_hex (line : String) : Bool :=
  match line.data with
  | c0 :: c1 :: _ => is_hex_digit c0 && is_hex_digit c1
  | _ => false

/-- Spec-side notion of a line that *is* a colon-delimited hex-byte
pattern: splitting the whole line on `:` yields groups of exactly two hex
digits each (so the entire line, not merely a prefix, is colon-delimited
hex bytes). -/
def spec_full_match (line : String) : Bool :=
  (py_split ':' line.data).all fun g => g.length == 2 && g.all is_hex_digit

/-- The join `g₁ : g₂ : … : gₙ` of groups with a colon between consecutive
groups — the shape of a valid raw tag line. -/
def join_sep (sep : Char) : List (List Char) → List Char
  | [] => []
  | [g] => g
  | g :: g2 :: gs => g ++ sep :: join_sep sep (g2 :: gs)

/-- Outcome of the `requests.post` call inside `send_tap`: a response with
a status code and body text, or a raised exception.  `connection_error`
models `requests.exceptions.ConnectionError` (connection refused, DNS
failure, reset — the class the code catches); `other_error` models a
`requests` exception not inheriting `ConnectionError`, e.g.
`requests.exceptions.ReadTimeout` or `ChunkedEncodingError`. -/
inductive HttpResult
  | response (status : Nat) (text : String)
  | connection_error (msg : String)
  | other_error (msg : String)
  deriving DecidableEq

/-- Observable side effects of the tap manager, in program order. -/
inductive Ev
  | tap_off_log (id : Option String)
  | led_success_off
  | tap_on_log (id : Option String)
  | led_success_on
  | led_failed
  | notify (id : Option String) (r : HttpResult)
  | log_text (t : String)
  | log_fail (m : String)
  | sentry_message (t : String)
  | sentry_exception (m : String)
  deriving DecidableEq

/-- A `threading.Timer` handle: a creation generation (so that distinct
timers are distinguishable) and whether it is alive. -/
structure TimerH where
  gen : Nat
  alive : Bool
  deriving DecidableEq

/-- Mutable fields of `TapManager` (`last_id_time` is written once in
`__init__` and never read, so it is omitted): `last_id : Option String`,
`tap_off_timer : Option Timer`, plus a counter supplying fresh timer
generations. -/
structure TapState where
  last_id : Option String
  tap_off_timer : Option TimerH
  next_gen : Nat
  deriving DecidableEq

/-- `TapManager.__init__`: `last_id = None`, `tap_off_timer = None`. -/
def init_tap : TapState :=
  ⟨none, none, 0⟩

/-- Result of one Python call: the state after it, the side effects it
performed, and `Except.error m` when it terminated by raising an uncaught
exception. -/
structure StepResult where
  state : TapState
  events : List Ev
  result : Except String Unit

namespace TapManager

/-- `TapManager.send_tap` (`runner.py` lines 173-203): POST the payload;
on status 201 log and return 0; on any other status log, send a Sentry
message and return 1; on `requests.exceptions.ConnectionError` log the
failure, capture the exception in Sentry and return 1.  Any other raised
exception is not caught and escapes. -/
def send_tap (id : Option String) (r : HttpResult) : List Ev × Except String Int :=
  match r with
  | .response status text =>
    if status = 201 then ([.notify id r, .log_text text], .ok 0)
    else ([.notify id r, .log_text text, .sentry_message text], .ok 1)
  | .connection_error m => ([.notify id r, .log_fail m, .sentry_exception m], .ok 1)
  | .other_error m => ([.notify id r], .error m)

/-- `TapManager.tap_on` (`runner.py` lines 205-208): log, `success_on`
ramp, then `send_tap(self.last_id)` with the return value discarded. -/
def tap_on (st : TapState) (r : HttpResult) : List Ev × Except String Unit :=
  let s := send_tap st.last_id r
  (.tap_on_log st.last_id :: .led_success_on :: s.1, s.2.map fun _ => ())

/-- `TapManager.tap_off` (`runner.py` lines 210-213): log the (old)
`last_id`, clear it, `success_off` ramp. -/
def tap_off (st : TapState) : TapState × List Ev :=
  ({ st with last_id := none }, [.tap_off_log st.last_id, .led_success_off])

/-- `TapManager._reset_tap_off_timer` (`runner.py` lines 215-221): cancel
and drop any existing timer, then start a fresh one. -/
def reset_tap_off_timer (st : TapState) : TapState :=
  { st with tap_off_timer := some ⟨st.next_gen, true⟩, next_gen := st.next_gen + 1 }

/-- The inline block at `runner.py` lines 239-241: when a live tap-off
timer exists (`self.tap_off_timer and self.tap_off_timer.is_alive()`),
cancel it and run `tap_off` synchronously. -/
def cancel_live_timer_and_tap_off (st : TapState) : TapState × List Ev :=
  match st.tap_off_timer with
  | some tm =>
    if tm.alive then
      tap_off { st with tap_off_timer := some ⟨tm.gen, false⟩ }
    else (st, [])
  | none => (st, [])

/-- `TapManager.read_line` (`runner.py` lines 232-244).  The id is
normalized; when it differs from `last_id` (in Python `id != self.last_id`,
true in particular when `last_id is None`), a live tap-off timer is
cancelled and `tap_off` runs synchronously, then `last_id` is set and
`tap_on` runs; in every non-raising path `_reset_tap_off_timer` rearms the
timer.  If `send_tap` raises, the exception escapes `read_line` before the
timer is rearmed. -/
def read_line (st : TapState) (line : String) (r : HttpResult) : StepResult :=
  let id := byte_string_to_lens_id line
  if some id ≠ st.last_id then
    let cancelled := cancel_live_timer_and_tap_off st
    let st2 := { cancelled.1 with last_id := some id }
    let t := tap_on st2 r
    match t.2 with
    | .ok _ => ⟨reset_tap_off_timer st2, cancelled.2 ++ t.1, .ok ()⟩
    | .error m => ⟨st2, cancelled.2 ++ t.1, .error m⟩
  else
    ⟨reset_tap_off_timer st, [], .ok ()⟩

end TapManager

/-- One iteration of the `while True` loop of `main` (`runner.py` lines
267-274): a line is handed to `tap_manager.read_line` exactly when
`re.match(BYTE_STRING_RE, line)` is truthy; otherwise nothing at all
happens. -/
def main_step (st : TapState) (line : String) (r : HttpResult) : StepResult :=
  if re_match_byte_string line then TapManager.read_line st line r
  else ⟨st, [], .ok ()⟩

/-- The `requests.post` outcomes that `send_tap` handles without raising:
a response of any status, or a `requests.exceptions.ConnectionError`. -/
def non_escaping : HttpResult → Bool
  | .other_error _ => false
  | _ => true

/-- Events that drive the LED animator. -/
def is_led_ev : Ev → Bool
  | .led_success_on => true
  | .led_success_off => true
  | .led_failed => true
  | _ => false

/-- The subsequence of LED indications among the emitted events. -/
def led_events (evs : List Ev) : List Ev :=
  evs.filter is_led_ev

/-- Whether an event is a notification attempt (a `requests.post` call). -/
def is_notify_ev : Ev → Bool
  | .notify _ _ => true
  | _ => false

/-- Number of notification attempts among the emitted events. -/
def notify_count (evs : List Ev) : Nat :=
  (evs.filter is_notify_ev).length

/-- An RGB color as written by `set_leds`; channels are Python ints. -/
abbrev Color := Int × Int × Int

/-- Python `int()` on a rational value: truncation toward zero. -/
def py_int (x : ℚ) : Int :=
  if 0 ≤ x then ⌊x⌋ else ⌈x⌉

/-- `RampThread.ease` (`runner.py` lines 64-71), Penner easeInCubic:
`t = t / d; r = c * t * t * t + b`. -/
def ease (t b c d : ℚ) : ℚ :=
  let s := t / d
  c * s * s * s + b

/-- What the ramp loop observes at one iteration: the value of
`time() - t0` and the stop flag `self.stopped()`. -/
structure Tick where
  elapsed : ℚ
  stopped : Bool
  deriving DecidableEq

/-- How an execution of `RampThread.run` ended: cancelled via the stop
event, completed by reaching the duration (writing the exact target), or
still pending (the supplied sample list ran out before either `break`). -/
inductive RunExit
  | cancelled
  | completed
  | pending
  deriving DecidableEq

/-- The interpolated color written by one non-final loop iteration:
`current_color[i] = int(ease(t, start_color[i], diff[i], duration_s))`. -/
def interp_color (t d : ℚ) (start diff : Color) : Color :=
  ( py_int (ease t start.1 diff.1 d)
  , py_int (ease t start.2.1 diff.2.1 d)
  , py_int (ease t start.2.2 diff.2.2 d) )

/-- Loop body of `RampThread.run` (`runner.py` lines 107-121) given the
start-color snapshot and the per-channel `diff`.  Returns the colors passed
to `set_leds` in order, the number of `ease` calls made, and the exit
mode. -/
def run_ramp_loop (d : ℚ) (start diff target : Color) : List Tick → List Color × Nat × RunExit
  | [] => ([], 0, .pending)
  | tk :: rest =>
    if tk.stopped then ([], 0, .cancelled)
    else if d ≤ tk.elapsed then ([target], 0, .completed)
    else
      let w := interp_color tk.elapsed d start diff
      let r := run_ramp_loop d start diff target rest
      (w :: r.1, r.2.1 + 3, r.2.2)

/-- `RampThread.run` (`runner.py` lines 98-121): snapshot the start color
(`deepcopy`), compute `diff = target - start` once, then loop. -/
def run_ramp (d : ℚ) (current target : Color) (ticks : List Tick) : List Color × Nat × RunExit :=
  let start := current
  let diff := (target.1 - start.1, target.2.1 - start.2.1, target.2.2 - start.2.2)
  run_ramp_loop d start diff target ticks

/-- Formalization of the claim that the normalizer rejects malformed input:
some distinguished marker value is returned on every raw string that is not
a colon-delimited hex-byte pattern, and on no raw string that is one (so
that the marker actually distinguishes invalid input).  The normalizer is a
total Lean function because the Python code can raise only when its
argument is not a `str`, which never happens in `runner.py`. -/
def normalize_invalid_marker_claim : Prop :=
  ∃ marker : String,
    (∀ s, spec_full_match s = false → TapManager.byte_string_to_lens_id s = marker) ∧
    (∀ s, spec_full_match s = true → TapManager.byte_string_to_lens_id s ≠ marker)

/- ----------------------------------------------------------------- -/
/- Helper lemmas -/
/- ----------------------------------------------------------------- -/

theorem dropWhile_eq_self_of_all {p : Char → Bool} :
    ∀ {l : List Char}, (∀ c ∈ l, p c = false) → l.dropWhile p = l := by
  intro l h
  cases l with
  | nil => rfl
  | cons c cs =>
    have hc : p c = false := h c (List.mem_cons_self c cs)
    simp [List.dropWhile_cons, hc]

theorem dropWhile_append_of_all {p : Char → Bool} :
    ∀ (l1 l2 : List Char), (∀ c ∈ l1, p c = true) →
      (l1 ++ l2).dropWhile p = l2.dropWhile p := by
  intro l1
  induction l1 with
  | nil => intro l2 _; rfl
  | cons c cs ih =>
    intro l2 h
    have hc : p c = true := h c (List.mem_cons_self c cs)
    have hcs : ∀ x ∈ cs, p x = true := fun x hx => h x (List.mem_cons_of_mem c hx)
    simp [List.dropWhile_cons, hc, ih l2 hcs]

theorem py_strip_list_sandwich (ws1 core ws2 : List Char)
    (h1 : ∀ c ∈ ws1, is_py_space c = true)
    (h2 : ∀ c ∈ ws2, is_py_space c = true)
    (hcore : ∀ c ∈ core, is_py_space c = false) :
    py_strip_list (ws1 ++ core ++ ws2) = core := by
  unfold py_strip_list
  rw [List.append_assoc]
  rw [dropWhile_append_of_all ws1 (core ++ ws2) h1]
  cases core with
  | nil =>
    have : (List.nil ++ ws2 : List Char) = ws2 := rfl
    rw [this]
    have hnil : ws2.dropWhile is_py_space = [] := by
      have := dropWhile_append_of_all ws2 [] h2
      simpa using this
    simp [hnil]
  | cons c cs =>
    have hc : is_py_space c = false := hcore c (List.mem_cons_self c cs)
    have hstep : ((c :: cs) ++ ws2).dropWhile is_py_space = (c :: cs) ++ ws2 := by
      simp [List.dropWhile_cons, hc]
    rw [hstep]
    have hrev : ((c :: cs) ++ ws2).reverse = ws2.reverse ++ (c :: cs).reverse := by
      simp
    rw [hrev]
    rw [dropWhile_append_of_all ws2.reverse (c :: cs).reverse
      (fun x hx => h2 x (List.mem_reverse.mp hx))]
    rw [dropWhile_eq_self_of_all (fun x hx => hcore x (List.mem_reverse.mp hx))]
    simp


theorem py_split_aux_append_no_sep {sep : Char} :
    ∀ (g l : List Char), sep ∉ g →
      py_split_aux sep (g ++ l)
        = (g ++ (py_split_aux sep l).1, (py_split_aux sep l).2) := by
  intro g
  induction g with
  | nil => intro l _; rfl
  | cons c cs ih =>
    intro l h
    have hc : c ≠ sep := fun hcs => h (hcs ▸ List.mem_cons_self c cs)
    have hcs : sep ∉ cs := fun hm => h (List.mem_cons_of_mem c hm)
    simp [py_split_aux, ih l hcs, hc]

theorem py_split_join_sep {sep : Char} :
    ∀ (gs : List (List Char)), gs ≠ [] → (∀ g ∈ gs, sep ∉ g) →
      py_split sep (join_sep sep gs) = gs := by
  intro gs
  induction gs with
  | nil => intro h _; exact absurd rfl h
  | cons g rest ih =>
    intro _ hall
    have hg : sep ∉ g := hall g (List.mem_cons_self g rest)
    cases rest with
    | nil =>
      have haux := py_split_aux_append_no_sep g [] hg
      simp [py_split_aux] at haux
      simp [join_sep, py_split, haux]
    | cons g2 gs2 =>
      have hrest : ∀ x ∈ g2 :: gs2, sep ∉ x := fun x hx => hall x (List.mem_cons_of_mem g hx)
      have hne : (g2 :: gs2 : List (List Char)) ≠ [] := by simp
      have hih := ih hne hrest
      have hstep : join_sep sep (g :: g2 :: gs2) = g ++ sep :: join_sep sep (g2 :: gs2) := rfl
      rw [hstep]
      unfold py_split
      rw [py_split_aux_append_no_sep g (sep :: join_sep sep (g2 :: gs2)) hg]
      have haux : py_split_aux sep (sep :: join_sep sep (g2 :: gs2))
          = ([], (py_split_aux sep (join_sep sep (g2 :: gs2))).1
              :: (py_split_aux sep (join_sep sep (g2 :: gs2))).2) := by
        simp [py_split_aux]
      rw [haux]
      unfold py_split at hih
      simp at hih ⊢
      exact hih

theorem py_space_not_hex {c : Char} (h : is_py_space c = true) : is_hex_digit c = false := by
  simp [is_py_space, beq_iff_eq] at h
  rcases h with ((((h | h) | h) | h) | h) | h <;> subst h <;> decide

theorem hex_not_py_space {c : Char} (h : is_hex_digit c = true) : is_py_space c = false := by
  cases hsp : is_py_space c with
  | false => rfl
  | true => rw [py_space_not_hex hsp] at h; exact absurd h (by simp)

theorem hex_ne_colon {c : Char} (h : is_hex_digit c = true) : c ≠ ':' := by
  intro hc
  subst hc
  exact absurd h (by decide)

theorem mem_join_sep {sep : Char} :
    ∀ (gs : List (List Char)) (c : Char), c ∈ join_sep sep gs →
      c = sep ∨ ∃ g ∈ gs, c ∈ g := by
  intro gs
  induction gs with
  | nil => intro c hc; simp [join_sep] at hc
  | cons g rest ih =>
    intro c hc
    cases rest with
    | nil =>
      simp [join_sep] at hc
      exact Or.inr ⟨g, by simp, hc⟩
    | cons g2 gs2 =>
      have : join_sep sep (g :: g2 :: gs2) = g ++ sep :: join_sep sep (g2 :: gs2) := rfl
      rw [this] at hc
      rcases List.mem_append.mp hc with hg | htl
      · exact Or.inr ⟨g, by simp, hg⟩
      · rcases List.mem_cons.mp htl with hsep | hrest
        · exact Or.inl hsep
        · rcases ih c hrest with h | ⟨g0, hg0, hcg0⟩
          · exact Or.inl h
          · exact Or.inr ⟨g0, List.mem_cons_of_mem g hg0, hcg0⟩

theorem send_tap_no_tap_events (i : Option String) (r : HttpResult) (x : Option String) :
    Ev.tap_off_log x ∉ (TapManager.send_tap i r).1
      ∧ Ev.tap_on_log x ∉ (TapManager.send_tap i r).1 := by
  cases r with
  | response status text =>
    by_cases h : status = 201 <;> simp [TapManager.send_tap, h]
  | connection_error m => simp [TapManager.send_tap]
  | other_error m => simp [TapManager.send_tap]

theorem send_tap_ok_shape (i : Option String) (r : HttpResult)
    (h : non_escaping r = true) :
    ∃ (evs : List Ev) (k : Int),
      TapManager.send_tap i r = (evs, .ok k)
        ∧ evs.filter is_led_ev = []
        ∧ (evs.filter is_notify_ev).length = 1
        ∧ Ev.led_failed ∉ evs
        ∧ Ev.led_success_on ∉ evs := by
  cases r with
  | response status text =>
    by_cases h201 : status = 201
    · subst h201
      exact ⟨[.notify i (.response 201 text), .log_text text], 0,
        rfl, rfl, rfl, by simp, by simp⟩
    · exact ⟨[.notify i (.response status text), .log_text text, .sentry_message text], 1,
        by simp [TapManager.send_tap, h201], rfl, rfl, by simp, by simp⟩
  | connection_error m =>
    exact ⟨[.notify i (.connection_error m), .log_fail m, .sentry_exception m], 1,
      rfl, rfl, rfl, by simp, by simp⟩
  | other_error m => simp [non_escaping] at h

theorem re_match_eq_starts_with_two_hex (line : String) :
    re_match_byte_string line = starts_with_two_hex line := by
  unfold re_match_byte_string starts_with_two_hex match_group
  match line.data with
  | [] => rfl
  | [c] => rfl
  | c0 :: c1 :: rest =>
    by_cases h : is_hex_digit c0 && is_hex_digit c1 <;> simp [h]

theorem run_ramp_loop_completed_last (d : ℚ) (start diff target : Color) :
    ∀ ticks : List Tick,
      (run_ramp_loop d start diff target ticks).2.2 = RunExit.completed →
      (run_ramp_loop d start diff target ticks).1 ≠ []
        ∧ (run_ramp_loop d start diff target ticks).1.getLast? = some target := by
  intro ticks
  induction ticks with
  | nil => intro h; simp [run_ramp_loop] at h
  | cons tk rest ih =>
    intro h
    by_cases hstop : tk.stopped = true
    · simp [run_ramp_loop, hstop] at h
    · by_cases hdone : d ≤ tk.elapsed
      · simp [run_ramp_loop, hstop, hdone]
      · simp only [run_ramp_loop, hstop, hdone] at h ⊢
        simp only [Bool.false_eq_true, if_false, if_neg hdone] at h ⊢
        rcases ih h with ⟨hne, hlast⟩
        constructor
        · simp
        · cases hr : (run_ramp_loop d start diff target rest).1 with
          | nil => exact absurd hr hne
          | cons w ws =>
            rw [hr] at hlast
            simpa [List.getLast?_cons_cons, hr] using hlast

theorem cancel_block_events (st : TapState) :
    ((TapManager.cancel_live_timer_and_tap_off st).2.filter is_notify_ev = []
        ∧ Ev.led_failed ∉ (TapManager.cancel_live_timer_and_tap_off st).2)
      ∧ Ev.led_success_on ∉ (TapManager.cancel_live_timer_and_tap_off st).2 := by
  unfold TapManager.cancel_live_timer_and_tap_off
  cases st.tap_off_timer with
  | none => simp
  | some tm =>
    by_cases h : tm.alive = true
    · simp [TapManager.tap_off, h, is_notify_ev]
    · simp [h]

theorem read_line_new_id_events (st : TapState) (line : String) (r : HttpResult)
    (hnew : some (TapManager.byte_string_to_lens_id line) ≠ st.last_id) :
    (TapManager.read_line st line r).events
      = (TapManager.cancel_live_timer_and_tap_off st).2
          ++ Ev.tap_on_log (some (TapManager.byte_string_to_lens_id line))
            :: Ev.led_success_on
            :: (TapManager.send_tap (some (TapManager.byte_string_to_lens_id line)) r).1 := by
  unfold TapManager.read_line
  rw [if_pos hnew]
  rcases hs : TapManager.send_tap (some (TapManager.byte_string_to_lens_id line)) r
    with ⟨sevs, sres⟩
  simp only [TapManager.tap_on, hs]
  cases sres <;> rfl

theorem read_line_new_id_ok_shape (st : TapState) (line : String) (r : HttpResult)
    (hnew : some (TapManager.byte_string_to_lens_id line) ≠ st.last_id)
    (hok : non_escaping r = true) :
    (TapManager.read_line st line r).state
        = TapManager.reset_tap_off_timer
            { (TapManager.cancel_live_timer_and_tap_off st).1
                with last_id := some (TapManager.byte_string_to_lens_id line) }
      ∧ (TapManager.read_line st line r).result = .ok () := by
  obtain ⟨sevs, k, hs, _, _, _, _⟩ :=
    send_tap_ok_shape (some (TapManager.byte_string_to_lens_id line)) r hok
  unfold TapManager.read_line
  rw [if_pos hnew]
  simp only [TapManager.tap_on, hs]
  simp [Except.map]

/- ----------------------------------------------------------------- -/
/- Claim theorems -/
/- ----------------------------------------------------------------- -/

/-- Claim C10: the module-level function `byte_string_to_lens_id` and the
method `TapManager._byte_string_to_lens_id` compute the same function —
every input string is mapped to equal outputs. -/
theorem method_normalizer_eq_module_normalizer :
    ∀ s : String, TapManager.byte_string_to_lens_id s = byte_string_to_lens_id s :=
  fun _ => rfl

/-- Claim C4 counterexample: `_byte_string_to_lens_id` neither fails (it is
total) nor returns a distinguished "invalid" marker on input that does not
match the colon-delimited hex-byte pattern.  No marker value can exist: the
invalid raw string `"XX:AB"` normalizes to `"ab"`, which is exactly the
canonical identifier produced for the valid raw string `"04:AB"`. -/
theorem normalizer_has_no_invalid_marker : ¬ normalize_invalid_marker_claim := by
  rintro ⟨marker, hinv, hval⟩
  have ha : TapManager.byte_string_to_lens_id "XX:AB" = marker :=
    hinv "XX:AB" (by decide)
  have hb : TapManager.byte_string_to_lens_id "04:AB" ≠ marker :=
    hval "04:AB" (by decide)
  have hx : TapManager.byte_string_to_lens_id "XX:AB" = "ab" := by decide
  have hy : TapManager.byte_string_to_lens_id "04:AB" = "ab" := by decide
  rw [hx] at ha
  rw [hy] at hb
  exact hb ha

/-- Claim C4 as amended: `_byte_string_to_lens_id` performs no validation —
it is total and always returns the lowercased join of the colon groups
after the first, so a malformed input can produce the very same output as
a valid one (`"XX:AB"` and `"04:AB"` both normalize to `"ab"`); rejection
of malformed lines is done solely by the regex gate of the main loop. -/
theorem normalizer_is_unvalidating :
    TapManager.byte_string_to_lens_id "XX:AB" = "ab"
      ∧ TapManager.byte_string_to_lens_id "04:AB" = "ab"
      ∧ spec_full_match "XX:AB" = false
      ∧ spec_full_match "04:AB" = true
      ∧ ∀ s : String,
          TapManager.byte_string_to_lens_id s
            = ⟨(((py_split ':' (py_strip_list s.data)).drop 1).flatten).map Char.toLower⟩ :=
  ⟨by decide, by decide, by decide, by decide, fun _ => rfl⟩

/-- Claim C5 counterexample: the gate of the main loop is *not* "the line
matches a colon-delimited hex-byte pattern".  The line `"0Ahello"` is not
such a pattern, yet `re.match` (a prefix match) accepts it and the loop
hands it to `read_line`, which changes state and emits events rather than
silently discarding it. -/
theorem main_loop_passes_non_pattern_line :
    spec_full_match "0Ahello" = false
      ∧ re_match_byte_string "0Ahello" = true
      ∧ (main_step init_tap "0Ahello" (.response 201 "ok")).events ≠ []
      ∧ (main_step init_tap "0Ahello" (.response 201 "ok")).state ≠ init_tap :=
  ⟨by decide, by decide, by decide, by decide⟩

/-- Claim C5 as amended: the main loop passes a line to `read_line` iff the
first two characters of the line are hexadecimal digits (Python `re.match` of
`([0-9a-fA-F]{2}:?)+` is a prefix match, so this is all the gate checks);
every other line is silently discarded with no state change, no events and
no error. -/
theorem main_loop_gate_is_two_hex_head :
    ∀ (st : TapState) (line : String) (r : HttpResult),
      main_step st line r
        = if starts_with_two_hex line then TapManager.read_line st line r
          else ⟨st, [], .ok ()⟩ := by
  intro st line r
  unfold main_step
  rw [re_match_eq_starts_with_two_hex]

/-- Claim C3 counterexample: not every transport-level failure is caught.
`send_tap` catches only `requests.exceptions.ConnectionError`; a transport
failure raised as a different exception class (here a read timeout) is
neither logged nor reported to Sentry — it escapes `send_tap` and, since
`main` has no handler, halts the main loop. -/
theorem send_tap_uncaught_transport_exception :
    TapManager.send_tap (some "x") (.other_error "ReadTimeout")
        = ([.notify (some "x") (.other_error "ReadTimeout")], .error "ReadTimeout")
      ∧ (main_step init_tap "04:AB" (.other_error "ReadTimeout")).result
          = .error "ReadTimeout" :=
  ⟨rfl, rfl⟩

/-- Claim C3 as amended: a transport failure raised as
`requests.exceptions.ConnectionError` (connection refused, DNS failure,
reset — and, since no `timeout` argument is passed to `requests.post`,
OS-level connect timeouts also surface in this class) is logged, reported
to Sentry as an exception object, and `send_tap` returns 1 without the
error escaping; the main loop is unaffected.  Transport exceptions of any
other class propagate (see the counterexample). -/
theorem send_tap_connection_error_handled :
    (∀ (i : Option String) (m : String),
        TapManager.send_tap i (.connection_error m)
          = ([.notify i (.connection_error m), .log_fail m, .sentry_exception m], .ok 1))
      ∧ ∀ (st : TapState) (line m : String),
          (main_step st line (.connection_error m)).result = .ok () := by
  refine ⟨fun i m => rfl, fun st line m => ?_⟩
  unfold main_step
  split
  · by_cases hnew : some (TapManager.byte_string_to_lens_id line) ≠ st.last_id
    · exact (read_line_new_id_ok_shape st line (.connection_error m) hnew rfl).2
    · unfold TapManager.read_line
      rw [if_neg hnew]
  · rfl

/-- Claim C7: a ramp with duration 0 snaps: at the first loop iteration
(`t = time() - t0 ≥ 0`, stop flag not set) the guard `t >= duration_s`
already holds, so `run` writes the exact target color once, performs no
interpolation step, and terminates; in particular `ease` — the only place
dividing by the duration — is called zero times, so the division by zero
is never reached and no error is raised. -/
theorem ramp_zero_duration_snaps_to_target (t : ℚ) (rest : List Tick)
    (current target : Color) (h : 0 ≤ t) :
    run_ramp 0 current target (⟨t, false⟩ :: rest) = ([target], 0, .completed) := by
  unfold run_ramp run_ramp_loop
  simp [h]

/-- Witness for C7 at a concrete input: duration 0, first sample at
elapsed 0, ramping from the default color to the success color. -/
theorem ramp_zero_duration_snaps_to_target_witness :
    (0 : ℚ) ≤ 0
      ∧ run_ramp 0 (130, 127, 127) (0, 255, 0) [⟨0, false⟩]
          = ([(0, 255, 0)], 0, .completed) :=
  ⟨le_refl 0, ramp_zero_duration_snaps_to_target 0 [] (130, 127, 127) (0, 255, 0) (le_refl 0)⟩

/-- Claim C8: whenever the ramp loop runs to completion (it reaches
`elapsed >= duration` without being stopped), the last color written is
exactly the target — not an interpolated approximation — and the loop
terminates right after that write (`RunExit.completed` is the `break` on
the exact-target branch, after which nothing further is written). -/
theorem ramp_completion_ends_exactly_at_target (d : ℚ) (current target : Color)
    (ticks : List Tick)
    (h : (run_ramp d current target ticks).2.2 = RunExit.completed) :
    (run_ramp d current target ticks).1 ≠ []
      ∧ (run_ramp d current target ticks).1.getLast? = some target := by
  unfold run_ramp at h ⊢
  exact run_ramp_loop_completed_last _ _ _ _ _ h

/-- Witness for C8 at a concrete input: a one-second ramp whose first
observed sample already lies past the duration. -/
theorem ramp_completion_ends_exactly_at_target_witness :
    (run_ramp 1 (0, 0, 0) (10, 10, 10) [⟨2, false⟩]).2.2 = RunExit.completed
      ∧ ((run_ramp 1 (0, 0, 0) (10, 10, 10) [⟨2, false⟩]).1 ≠ []
          ∧ (run_ramp 1 (0, 0, 0) (10, 10, 10) [⟨2, false⟩]).1.getLast?
              = some (10, 10, 10)) :=
  ⟨by decide,
    ramp_completion_ends_exactly_at_target 1 (0, 0, 0) (10, 10, 10)
      [⟨2, false⟩] (by decide)⟩

/-- Claim C6: for every valid raw line — surrounding whitespace around
colon-joined groups of hex digits — the normalizer strips the whitespace,
drops exactly one leading colon-delimited group, joins the remaining
groups, and lowercases the result; in particular
`"04:04:A5:2C:F2:2A:5E:80"` normalizes to `"04a52cf22a5e80"`.  Purity and
determinism hold because the embedded normalizer is a Lean function of its
argument alone. -/
theorem normalizer_strips_drops_joins_lowercases :
    (∀ (ws1 ws2 : List Char) (gs : List (List Char)),
        ws1.all is_py_space = true →
        ws2.all is_py_space = true →
        gs ≠ [] →
        (∀ g ∈ gs, ∀ c ∈ g, is_hex_digit c = true) →
        byte_string_to_lens_id ⟨ws1 ++ (join_sep ':' gs ++ ws2)⟩
          = ⟨((gs.drop 1).flatten).map Char.toLower⟩)
      ∧ byte_string_to_lens_id "04:04:A5:2C:F2:2A:5E:80" = "04a52cf22a5e80" := by
  constructor
  · intro ws1 ws2 gs h1 h2 hne hhex
    have hcore : ∀ c ∈ join_sep ':' gs, is_py_space c = false := by
      intro c hc
      rcases mem_join_sep gs c hc with h | ⟨g, hg, hcg⟩
      · subst h; decide
      · exact hex_not_py_space (hhex g hg c hcg)
    have hcolon : ∀ g ∈ gs, ':' ∉ g :=
      fun g hg hmem => hex_ne_colon (hhex g hg ':' hmem) rfl
    unfold byte_string_to_lens_id
    rw [show (⟨ws1 ++ (join_sep ':' gs ++ ws2)⟩ : String).data
        = ws1 ++ (join_sep ':' gs ++ ws2) from rfl]
    rw [← List.append_assoc]
    rw [py_strip_list_sandwich ws1 (join_sep ':' gs) ws2
      (List.all_eq_true.mp h1) (List.all_eq_true.mp h2) hcore]
    rw [py_split_join_sep gs hne hcolon]
  · decide

/-- Witness for C6 at a concrete input: `" 04:A5\n"`, i.e. whitespace
around the two hex groups `04` and `A5`, normalizes to `"a5"` (the first
group dropped, the rest lowercased). -/
theorem normalizer_strips_drops_joins_lowercases_witness :
    (([' '] : List Char).all is_py_space = true)
      ∧ ((['\n'] : List Char).all is_py_space = true)
      ∧ (([['0', '4'], ['A', '5']] : List (List Char)) ≠ [])
      ∧ (∀ g ∈ ([['0', '4'], ['A', '5']] : List (List Char)),
          ∀ c ∈ g, is_hex_digit c = true)
      ∧ byte_string_to_lens_id ⟨[' '] ++ (join_sep ':' [['0', '4'], ['A', '5']] ++ ['\n'])⟩
          = ⟨((([['0', '4'], ['A', '5']] : List (List Char)).drop 1).flatten).map Char.toLower⟩ :=
  ⟨by decide, by decide, by decide, by decide,
    normalizer_strips_drops_joins_lowercases.1 [' '] ['\n'] [['0', '4'], ['A', '5']]
      (by decide) (by decide) (by decide) (by decide)⟩

/-- Claim C1: when `read_line` sees a normalized id different from the
current `last_id` while the debounce timer is alive, exactly one tap-off
for the previous id runs synchronously before exactly one tap-on for the
new id — never both actions for one id, never reordered — so the old
session is closed before the new one opens.  This holds for every
notification outcome, since both effects precede the `requests.post`
call. -/
theorem read_line_new_id_taps_off_then_on (st : TapState) (line prev : String)
    (tmr : TimerH) (r : HttpResult)
    (hprev : st.last_id = some prev)
    (htm : st.tap_off_timer = some tmr)
    (halive : tmr.alive = true)
    (hne : TapManager.byte_string_to_lens_id line ≠ prev) :
    ∃ tail : List Ev,
      (TapManager.read_line st line r).events
          = Ev.tap_off_log (some prev) :: Ev.led_success_off
            :: Ev.tap_on_log (some (TapManager.byte_string_to_lens_id line))
            :: Ev.led_success_on :: tail
        ∧ (∀ x, Ev.tap_off_log x ∉ tail ∧ Ev.tap_on_log x ∉ tail)
        ∧ (TapManager.read_line st line r).events.count (Ev.tap_off_log (some prev)) = 1
        ∧ (TapManager.read_line st line r).events.count
            (Ev.tap_on_log (some (TapManager.byte_string_to_lens_id line))) = 1
        ∧ (TapManager.read_line st line r).events.count
            (Ev.tap_off_log (some (TapManager.byte_string_to_lens_id line))) = 0
        ∧ (TapManager.read_line st line r).events.count (Ev.tap_on_log (some prev)) = 0 := by
  have hnew : some (TapManager.byte_string_to_lens_id line) ≠ st.last_id := by
    rw [hprev]
    simpa using hne
  have hcancel : TapManager.cancel_live_timer_and_tap_off st
      = ({ st with tap_off_timer := some ⟨tmr.gen, false⟩, last_id := none },
          [Ev.tap_off_log (some prev), Ev.led_success_off]) := by
    unfold TapManager.cancel_live_timer_and_tap_off
    rw [htm]
    simp [halive, TapManager.tap_off, hprev]
  have hevs := read_line_new_id_events st line r hnew
  rw [hcancel] at hevs
  refine ⟨(TapManager.send_tap (some (TapManager.byte_string_to_lens_id line)) r).1,
    by simpa using hevs, ?_, ?_, ?_, ?_, ?_⟩
  · intro x
    exact send_tap_no_tap_events (some (TapManager.byte_string_to_lens_id line)) r x
  · rw [hevs]
    have hno := (send_tap_no_tap_events
      (some (TapManager.byte_string_to_lens_id line)) r (some prev)).1
    simp [List.count_cons, List.count_eq_zero.mpr hno, hne]
  · rw [hevs]
    have hno := (send_tap_no_tap_events (some (TapManager.byte_string_to_lens_id line)) r
      (some (TapManager.byte_string_to_lens_id line))).2
    simp [List.count_cons, List.count_eq_zero.mpr hno, hne]
  · rw [hevs]
    have hno := (send_tap_no_tap_events (some (TapManager.byte_string_to_lens_id line)) r
      (some (TapManager.byte_string_to_lens_id line))).1
    simp [List.count_cons, List.count_eq_zero.mpr hno, hne]
  · rw [hevs]
    have hno := (send_tap_no_tap_events
      (some (TapManager.byte_string_to_lens_id line)) r (some prev)).2
    simp [List.count_cons, List.count_eq_zero.mpr hno, hne]

/-- Witness for C1 at a concrete input: state `PRESENT("aa")` with a live
timer, new line `"04:AB"` (normalizing to `"ab"`), successful
notification. -/
theorem read_line_new_id_taps_off_then_on_witness :
    ((⟨some "aa", some ⟨0, true⟩, 1⟩ : TapState).last_id = some "aa")
      ∧ ((⟨some "aa", some ⟨0, true⟩, 1⟩ : TapState).tap_off_timer = some ⟨0, true⟩)
      ∧ ((⟨0, true⟩ : TimerH).alive = true)
      ∧ (TapManager.byte_string_to_lens_id "04:AB" ≠ "aa")
      ∧ ∃ tail : List Ev,
          (TapManager.read_line ⟨some "aa", some ⟨0, true⟩, 1⟩ "04:AB"
              (.response 201 "ok")).events
              = Ev.tap_off_log (some "aa") :: Ev.led_success_off
                :: Ev.tap_on_log (some (TapManager.byte_string_to_lens_id "04:AB"))
                :: Ev.led_success_on :: tail
            ∧ (∀ x, Ev.tap_off_log x ∉ tail ∧ Ev.tap_on_log x ∉ tail)
            ∧ (TapManager.read_line ⟨some "aa", some ⟨0, true⟩, 1⟩ "04:AB"
                (.response 201 "ok")).events.count (Ev.tap_off_log (some "aa")) = 1
            ∧ (TapManager.read_line ⟨some "aa", some ⟨0, true⟩, 1⟩ "04:AB"
                (.response 201 "ok")).events.count
                  (Ev.tap_on_log (some (TapManager.byte_string_to_lens_id "04:AB"))) = 1
            ∧ (TapManager.read_line ⟨some "aa", some ⟨0, true⟩, 1⟩ "04:AB"
                (.response 201 "ok")).events.count
                  (Ev.tap_off_log (some (TapManager.byte_string_to_lens_id "04:AB"))) = 0
            ∧ (TapManager.read_line ⟨some "aa", some ⟨0, true⟩, 1⟩ "04:AB"
                (.response 201 "ok")).events.count (Ev.tap_on_log (some "aa")) = 0 :=
  ⟨rfl, rfl, rfl, by decide,
    read_line_new_id_taps_off_then_on ⟨some "aa", some ⟨0, true⟩, 1⟩ "04:AB" "aa"
      ⟨0, true⟩ (.response 201 "ok") rfl rfl rfl (by decide)⟩

/-- Claim C2: when the normalized id equals the current `last_id`,
`read_line` performs no tap-on, no tap-off and sends no notification (it
emits no event at all) and does not raise; its only effect is to rearm the
debounce timer, replacing the previous timer object with a fresh live one.
The generation hypothesis states that existing timers were created before
the current counter value, which holds for every reachable state. -/
theorem read_line_same_id_rearms_timer_only (st : TapState) (line : String)
    (r : HttpResult)
    (hsame : st.last_id = some (TapManager.byte_string_to_lens_id line))
    (hgen : st.tap_off_timer.all (fun tmr => decide (tmr.gen < st.next_gen)) = true) :
    (TapManager.read_line st line r).events = []
      ∧ (TapManager.read_line st line r).result = .ok ()
      ∧ (TapManager.read_line st line r).state.last_id = st.last_id
      ∧ (TapManager.read_line st line r).state.tap_off_timer = some ⟨st.next_gen, true⟩
      ∧ (TapManager.read_line st line r).state.tap_off_timer ≠ st.tap_off_timer := by
  have hcond : ¬ (some (TapManager.byte_string_to_lens_id line) ≠ st.last_id) := by
    rw [hsame]
    simp
  have hred : TapManager.read_line st line r
      = ⟨TapManager.reset_tap_off_timer st, [], .ok ()⟩ := by
    unfold TapManager.read_line
    rw [if_neg hcond]
  rw [hred]
  refine ⟨rfl, rfl, rfl, rfl, ?_⟩
  cases htm : st.tap_off_timer with
  | none => simp [TapManager.reset_tap_off_timer]
  | some tmr =>
    rw [htm] at hgen
    have hlt : tmr.gen < st.next_gen := by simpa using hgen
    simp only [TapManager.reset_tap_off_timer, ne_eq, Option.some_inj]
    intro heq
    have hgeneq := congrArg TimerH.gen heq
    simp at hgeneq
    omega

/-- Witness for C2 at a concrete input: state `PRESENT("ab")` with no
timer yet, repeated line `"04:AB"`. -/
theorem read_line_same_id_rearms_timer_only_witness :
    ((⟨some "ab", none, 0⟩ : TapState).last_id
        = some (TapManager.byte_string_to_lens_id "04:AB"))
      ∧ ((⟨some "ab", none, 0⟩ : TapState).tap_off_timer.all
          (fun tmr => decide (tmr.gen < (⟨some "ab", none, 0⟩ : TapState).next_gen)) = true)
      ∧ ((TapManager.read_line ⟨some "ab", none, 0⟩ "04:AB" (.response 201 "ok")).events = []
          ∧ (TapManager.read_line ⟨some "ab", none, 0⟩ "04:AB"
              (.response 201 "ok")).result = .ok ()
          ∧ (TapManager.read_line ⟨some "ab", none, 0⟩ "04:AB"
              (.response 201 "ok")).state.last_id = some "ab"
          ∧ (TapManager.read_line ⟨some "ab", none, 0⟩ "04:AB"
              (.response 201 "ok")).state.tap_off_timer = some ⟨0, true⟩
          ∧ (TapManager.read_line ⟨some "ab", none, 0⟩ "04:AB"
              (.response 201 "ok")).state.tap_off_timer ≠ none) :=
  ⟨by decide, by decide,
    read_line_same_id_rearms_timer_only ⟨some "ab", none, 0⟩ "04:AB"
      (.response 201 "ok") (by decide) (by decide)⟩

/-- Claim C9: for a tap-on (a new id), `last_id` and the LED success-on
indication are the same whether the notification is delivered (201),
rejected (other status) or fails in transport (ConnectionError): the state
transition is identical and not rolled back, exactly one notification
attempt is made (no retry), and the LED failure indication is never
triggered (indeed `LedsManager.failed` has no caller in `runner.py`). -/
theorem read_line_notification_outcome_invariant (st : TapState) (line : String)
    (r1 r2 : HttpResult)
    (hnew : some (TapManager.byte_string_to_lens_id line) ≠ st.last_id)
    (h1 : non_escaping r1 = true) (h2 : non_escaping r2 = true) :
    (TapManager.read_line st line r1).state = (TapManager.read_line st line r2).state
      ∧ (TapManager.read_line st line r1).state.last_id
          = some (TapManager.byte_string_to_lens_id line)
      ∧ led_events (TapManager.read_line st line r1).events
          = led_events (TapManager.read_line st line r2).events
      ∧ Ev.led_success_on ∈ (TapManager.read_line st line r1).events
      ∧ notify_count (TapManager.read_line st line r1).events = 1
      ∧ Ev.led_failed ∉ (TapManager.read_line st line r1).events := by
  obtain ⟨evs1, k1, hs1, hled1, hnot1, hfail1, hon1⟩ :=
    send_tap_ok_shape (some (TapManager.byte_string_to_lens_id line)) r1 h1
  obtain ⟨evs2, k2, hs2, hled2, hnot2, hfail2, hon2⟩ :=
    send_tap_ok_shape (some (TapManager.byte_string_to_lens_id line)) r2 h2
  have hshape1 := read_line_new_id_ok_shape st line r1 hnew h1
  have hshape2 := read_line_new_id_ok_shape st line r2 hnew h2
  have hevs1 := read_line_new_id_events st line r1 hnew
  have hevs2 := read_line_new_id_events st line r2 hnew
  rw [hs1] at hevs1
  rw [hs2] at hevs2
  obtain ⟨⟨hcnone, hcnofail⟩, hcnoon⟩ := cancel_block_events st
  refine ⟨hshape1.1.trans hshape2.1.symm, ?_, ?_, ?_, ?_, ?_⟩
  · rw [hshape1.1]
    rfl
  · rw [hevs1, hevs2]
    simp [led_events, List.filter_append, List.filter_cons, is_led_ev, hled1, hled2]
  · rw [hevs1]
    simp
  · rw [hevs1]
    simp [notify_count, List.filter_append, List.filter_cons, is_notify_ev, hcnone, hnot1]
  · rw [hevs1]
    simp [List.mem_append, List.mem_cons, hcnofail, hfail1]

/-- Witness for C9 at a concrete input: a fresh manager reading `"04:AB"`,
comparing a delivered notification with a connection failure. -/
theorem read_line_notification_outcome_invariant_witness :
    (some (TapManager.byte_string_to_lens_id "04:AB") ≠ init_tap.last_id)
      ∧ non_escaping (.response 201 "ok") = true
      ∧ non_escaping (.connection_error "refused") = true
      ∧ ((TapManager.read_line init_tap "04:AB" (.response 201 "ok")).state
            = (TapManager.read_line init_tap "04:AB" (.connection_error "refused")).state
          ∧ (TapManager.read_line init_tap "04:AB" (.response 201 "ok")).state.last_id
              = some (TapManager.byte_string_to_lens_id "04:AB")
          ∧ led_events (TapManager.read_line init_tap "04:AB" (.response 201 "ok")).events
              = led_events (TapManager.read_line init_tap "04:AB"
                  (.connection_error "refused")).events
          ∧ Ev.led_success_on
              ∈ (TapManager.read_line init_tap "04:AB" (.response 201 "ok")).events
          ∧ notify_count (TapManager.read_line init_tap "04:AB"
              (.response 201 "ok")).events = 1
          ∧ Ev.led_failed
              ∉ (TapManager.read_line init_tap "04:AB" (.response 201 "ok")).events) :=
  ⟨by decide, rfl, rfl,
    read_line_notification_outcome_invariant init_tap "04:AB" (.response 201 "ok")
      (.connection_error "refused") (by decide) rfl rfl⟩
